import Mathlib

/-!
Verification of tty.js `src/pty.cc`: `ForkPty` and `ResizePty`

A shallow embedding of the two native functions exported by `pty.cc`
(`fork` = `ForkPty`, `resize` = `ResizePty`) together with the small part of
the V8 API and of libc that they call.

* A call is run against a `Host`: the answers the surrounding system gives to
  the calls the code makes (user directory, `forkpty`, `ioctl`, ...), as seen
  from ONE execution context.  `forkpty` returning `0` is the child context,
  a positive value the parent context, `-1` the failure.
* Every library call the code makes is recorded, in program order, in the
  `trace` of the resulting `Run`; the `outcome` says how the context ended.
-/

namespace Pty

/-! ## JavaScript values (the part of the V8 API used by `pty.cc`) -/

/-- A JavaScript number: a finite binary floating point value `mant * 2 ^ exp`,
a NaN, or an infinity. -/
inductive JsNumber where
  | finite (mant : Int) (exp : Int)
  | nan
  | inf (negative : Bool)
  deriving DecidableEq, Repr

/-- A JavaScript value as seen through `v8::Value`; `object` stands for every
value that is neither a primitive number, string, boolean, null nor undefined. -/
inductive JsValue where
  | undefined
  | null
  | boolean (b : Bool)
  | number (n : JsNumber)
  | string (s : String)
  | object
  deriving DecidableEq, Repr

/-- The JavaScript number with integer value `i`. -/
def JsNumber.ofInt (i : Int) : JsNumber := .finite i 0

/-- Mathematical value of `mant * 2 ^ exp` truncated toward zero. -/
def JsNumber.truncate (mant exp : Int) : Int :=
  if 0 ≤ exp then mant * 2 ^ exp.toNat else Int.tdiv mant (2 ^ (-exp).toNat)

/-- ECMAScript `ToInteger` on a number (what `Value::ToInteger` computes once
the value is a number): NaN becomes `+0`, infinities stay, finite values are
truncated toward zero. -/
def JsNumber.ToInteger : JsNumber → JsNumber
  | .finite m e => .finite (JsNumber.truncate m e) 0
  | .nan => .finite 0 0
  | .inf b => .inf b

/-- `v8::Value::IsString`. -/
def JsValue.IsString : JsValue → Bool
  | .string _ => true
  | _ => false

/-- `v8::Value::IsNumber`. -/
def JsValue.IsNumber : JsValue → Bool
  | .number _ => true
  | _ => false

/-- `v8::Arguments::operator[]`: an index past the end yields `undefined`. -/
def arg (args : List JsValue) (i : Nat) : JsValue := args.getD i .undefined

/-- The C string a `char *` denotes: the characters before the first NUL. -/
def cstr (s : String) : String := String.mk (s.data.takeWhile (fun c => c != Char.ofNat 0))

/-! ## libc data -/

/-- `struct winsize` of `<sys/ioctl.h>`: four `unsigned short` fields. -/
structure winsize where
  ws_row : Nat
  ws_col : Nat
  ws_xpixel : Nat
  ws_ypixel : Nat
  deriving DecidableEq, Repr

/-- `struct passwd` of `<pwd.h>` (the fields every platform has). -/
structure passwd where
  pw_name : String
  pw_uid : Nat
  pw_gid : Nat
  pw_dir : String
  pw_shell : String
  deriving DecidableEq, Repr

/-- What one `forkpty` call hands back: its return value and the value it
stored through the `amaster` pointer. -/
structure ForkptyResult where
  pid : Int
  master : Int
  deriving DecidableEq, Repr

/-- The environment of one execution context: the answers to every call that
leaves `pty.cc`. -/
structure Host where
  /-- ECMAScript `ToNumber` on strings and objects. -/
  js_ToNumber : JsValue → JsNumber
  /-- ECMAScript `ToString` on values that are not strings. -/
  js_ToString : JsValue → String
  /-- Result of `static_cast<int64_t>(double)` when the double is outside the
  range of `int64_t` (undefined by the language, fixed by the platform). -/
  int64_cast_overflow : JsNumber → Int
  /-- The user directory: `getpwnam`, `none` being the NULL pointer. -/
  getpwnam : String → Option passwd
  /-- The result of `forkpty(&master, NULL, NULL, &winp)` in this context. -/
  forkpty : winsize → ForkptyResult
  /-- Real group id the forked child starts with. -/
  gid : Nat
  /-- Whether `setgid g` in the child leaves the REAL group id equal to `g`
  (it does for a privileged caller; an unprivileged call fails or changes
  the effective id only). -/
  setgid_sets_real : Nat → Bool
  /-- Whether `execvp file argv` returns (fails) rather than replacing the image. -/
  execvp_returns : String → Bool
  /-- Return value of `ioctl(fd, TIOCSWINSZ, &winp)`. -/
  ioctl_TIOCSWINSZ : Int → winsize → Int

/-- `v8::Value::ToNumber`, on the primitive cases fixed by ECMAScript and
delegated to the host otherwise. -/
def Host.ToNumber (h : Host) : JsValue → JsNumber
  | .number n => n
  | .undefined => .nan
  | .null => .finite 0 0
  | .boolean b => .finite (if b then 1 else 0) 0
  | v => h.js_ToNumber v

/-- `v8::Value::ToString` followed by `String::Utf8Value`. -/
def Host.ToString (h : Host) : JsValue → String
  | .string s => s
  | v => h.js_ToString v

/-- `v8::Integer::Value` applied to a number: the `int64_t` it converts to. -/
def Host.Value (h : Host) : JsNumber → Int
  | .finite m e =>
    let t := JsNumber.truncate m e
    if -9223372036854775808 ≤ t ∧ t < 9223372036854775808 then t
    else h.int64_cast_overflow (.finite m e)
  | n => h.int64_cast_overflow n

/-- The expression `v->ToInteger()->Value()`. -/
def Host.IntegerValue (h : Host) (v : JsValue) : Int := h.Value (h.ToNumber v).ToInteger

/-- Conversion of an `int64_t` to `unsigned short` (assignment to `ws_col`, `ws_row`). -/
def toUnsignedShort (x : Int) : Nat := (x % 65536).toNat

/-- Conversion of an `int64_t` to a 32-bit `int` (initialisation of `int fd`). -/
def toCInt (x : Int) : Int := (x + 2147483648) % 4294967296 - 2147483648

/-! ## Observable behaviour -/

/-- One call that leaves `pty.cc`, with its arguments. -/
inductive Effect where
  | strdup (s : String)
  | getpwnam (name : String)
  | signal_SIGCHLD_SIG_IGN
  | forkpty (winp : winsize)
  | setgid (gid : Nat)
  | setegid (gid : Nat)
  | getgid
  | setgroups (size : Nat) (list : List Nat)
  | setuid (uid : Nat)
  | seteuid (uid : Nat)
  | setenv (name value : String) (overwrite : Int)
  | chdir (path : String)
  | execvp (file : String) (argv : List String)
  | perror (s : String)
  | _exit (status : Int)
  | ioctl_TIOCSWINSZ (fd : Int) (winp : winsize)
  deriving DecidableEq, Repr

/-- The six `ThrowException(Exception::Error(String::New(...)))` sites. -/
inductive PtyError where
  | notEnoughArguments
  | firstTwoStrings
  | colsRowsNumbers
  | forkptyFailed
  | firstArgumentNumber
  | ioctlFailed
  deriving DecidableEq, Repr

/-- The message each site throws. -/
def PtyError.message : PtyError → String
  | .notEnoughArguments => "Not enough arguments to ForkPty."
  | .firstTwoStrings => "First two arguments must be strings."
  | .colsRowsNumbers => "cols and rows need to be numbers."
  | .forkptyFailed => "forkpty failed."
  | .firstArgumentNumber => "First argument must be a number."
  | .ioctlFailed => "ioctl failed."

/-- How an execution context leaves the function. -/
inductive Outcome where
  /-- A JavaScript exception is thrown to the caller. -/
  | threw (e : PtyError)
  /-- `ForkPty` returns the object with properties `fd` and `pid`. -/
  | returnedObject (fd pid : Int)
  /-- `ResizePty` returns `Undefined()`. -/
  | returnedUndefined
  /-- Child: `execvp` replaced the process image. -/
  | execed (file : String) (argv : List String)
  /-- Child: the process ended through `_exit`. -/
  | exited (status : Int)
  /-- Child: `pwd` is NULL and is dereferenced. -/
  | nullDereference
  deriving DecidableEq, Repr

/-- The calls made, in program order, and the way the context ended. -/
structure Run where
  trace : List Effect
  outcome : Outcome
  deriving DecidableEq, Repr

/-! ## `ForkPty` (pty.cc lines 47-124) -/

/-- Lines 95-117: the body of `if (pid == 0)`, run in the child. -/
def ForkPty_child (h : Host) (args : List JsValue) (argv0 : String) (pwd : Option passwd) : Run :=
  match pwd with
  | none => { trace := [], outcome := .nullDereference }
  | some pw =>
    let newgid : Nat := if h.setgid_sets_real pw.pw_gid then pw.pw_gid else h.gid
    let term : String :=
      if args.length > 2 && (arg args 2).IsString then cstr (h.ToString (arg args 2)) else "vt100"
    let termEffects : List Effect :=
      if args.length > 2 && (arg args 2).IsString then
        [.strdup term, .setenv "TERM" term 1]
      else
        [.setenv "TERM" term 1]
    let upToExec : List Effect :=
      [.setgid pw.pw_gid, .setegid pw.pw_gid,
       .getgid, .setgroups 1 [newgid],
       .setuid pw.pw_uid, .seteuid pw.pw_uid] ++ termEffects ++
      [.chdir pw.pw_dir, .execvp argv0 [argv0]]
    if h.execvp_returns argv0 then
      { trace := upToExec ++ [.perror "execvp failed", ._exit 1], outcome := .exited 1 }
    else
      { trace := upToExec, outcome := .execed argv0 [argv0] }

/-- Lines 85-124: `signal`, `forkpty` and the three-way branch on `pid`. -/
def ForkPty_spawn (h : Host) (args : List JsValue) (argv0 : String) (pwd : Option passwd)
    (winp : winsize) : Run :=
  let r := h.forkpty winp
  let master := r.master
  let pid := r.pid
  let pre : List Effect := [.signal_SIGCHLD_SIG_IGN, .forkpty winp]
  if pid == -1 then
    { trace := pre, outcome := .threw .forkptyFailed }
  else if pid == 0 then
    let c := ForkPty_child h args argv0 pwd
    { trace := pre ++ c.trace, outcome := c.outcome }
  else
    { trace := pre, outcome := .returnedObject master pid }

/-- The native function `ForkPty` (exported as `fork`). -/
def ForkPty (h : Host) (args : List JsValue) : Run :=
  if args.length < 2 then
    { trace := [], outcome := .threw .notEnoughArguments }
  else if !(arg args 0).IsString || !(arg args 1).IsString then
    { trace := [], outcome := .threw .firstTwoStrings }
  else
    let file := cstr (h.ToString (arg args 0))
    let argv0 := file
    let username := cstr (h.ToString (arg args 1))
    let pwd := h.getpwnam username
    let pre : List Effect := [.strdup file, .getpwnam username]
    let winp : winsize := { ws_row := 30, ws_col := 80, ws_xpixel := 0, ws_ypixel := 0 }
    if args.length == 5 then
      if (arg args 3).IsNumber && (arg args 4).IsNumber then
        let cols := h.IntegerValue (arg args 3)
        let rows := h.IntegerValue (arg args 4)
        let winp := { winp with ws_col := toUnsignedShort cols, ws_row := toUnsignedShort rows }
        let s := ForkPty_spawn h args argv0 pwd winp
        { trace := pre ++ s.trace, outcome := s.outcome }
      else
        { trace := pre, outcome := .threw .colsRowsNumbers }
    else
      let s := ForkPty_spawn h args argv0 pwd winp
      { trace := pre ++ s.trace, outcome := s.outcome }

/-! ## `ResizePty` (pty.cc lines 130-163) -/

/-- The descriptor `ResizePty` operates on (line 142):
`int fd = args[0]->ToInteger()->Value()`. -/
def descriptorOf (h : Host) (v : JsValue) : Int := toCInt (h.IntegerValue v)

/-- Lines 157-162: the `ioctl` and the return. -/
def ResizePty_apply (h : Host) (fd : Int) (winp : winsize) : Run :=
  if h.ioctl_TIOCSWINSZ fd winp == -1 then
    { trace := [.ioctl_TIOCSWINSZ fd winp], outcome := .threw .ioctlFailed }
  else
    { trace := [.ioctl_TIOCSWINSZ fd winp], outcome := .returnedUndefined }

/-- The native function `ResizePty` (exported as `resize`). -/
def ResizePty (h : Host) (args : List JsValue) : Run :=
  if args.length > 0 && !(arg args 0).IsNumber then
    { trace := [], outcome := .threw .firstArgumentNumber }
  else
    let winp : winsize := { ws_row := 30, ws_col := 80, ws_xpixel := 0, ws_ypixel := 0 }
    let fd : Int := descriptorOf h (arg args 0)
    if args.length == 3 then
      if (arg args 1).IsNumber && (arg args 2).IsNumber then
        let cols := h.IntegerValue (arg args 1)
        let rows := h.IntegerValue (arg args 2)
        let winp := { winp with ws_col := toUnsignedShort cols, ws_row := toUnsignedShort rows }
        ResizePty_apply h fd winp
      else
        { trace := [], outcome := .threw .colsRowsNumbers }
    else
      ResizePty_apply h fd winp

/-! ## The specification's vocabulary -/

/-- The error taxonomy of the specification (its section 7). -/
inductive ErrorKind where
  | InvalidArgument
  | UserLookupFailure
  | ForkFailure
  | IoctlFailure
  | ExecFailure
  deriving DecidableEq, Repr

/-- The taxonomy class of each exception `pty.cc` throws.  No throw site
belongs to `UserLookupFailure` or `ExecFailure`. -/
def PtyError.kind : PtyError → ErrorKind
  | .notEnoughArguments => .InvalidArgument
  | .firstTwoStrings => .InvalidArgument
  | .colsRowsNumbers => .InvalidArgument
  | .firstArgumentNumber => .InvalidArgument
  | .forkptyFailed => .ForkFailure
  | .ioctlFailed => .IoctlFailure

/-- The window sizes of the `forkpty` calls of a trace, in order. -/
def forkptyCalls : List Effect → List winsize
  | [] => []
  | .forkpty w :: t => w :: forkptyCalls t
  | _ :: t => forkptyCalls t

/-- The descriptor and geometry of the window-size updates of a trace, in order. -/
def ioctlCalls : List Effect → List (Int × winsize)
  | [] => []
  | .ioctl_TIOCSWINSZ fd w :: t => (fd, w) :: ioctlCalls t
  | _ :: t => ioctlCalls t

/-- The `setgroups` calls of a trace, in order: the size and the list passed. -/
def setgroupsCalls : List Effect → List (Nat × List Nat)
  | [] => []
  | .setgroups n l :: t => (n, l) :: setgroupsCalls t
  | _ :: t => setgroupsCalls t

/-- Whether a call of `ForkPty` gets past its three argument checks
(lines 52, 57 and 72-73). -/
def passesValidation (args : List JsValue) : Bool :=
  decide (2 ≤ args.length) && (arg args 0).IsString && (arg args 1).IsString &&
    (args.length != 5 || ((arg args 3).IsNumber && (arg args 4).IsNumber))

/-! ## Concrete hosts used to evaluate the code -/

/-- The user directory of the example hosts: one account. -/
def sampleUsers (name : String) : Option passwd :=
  if name = "alice" then
    some { pw_name := "alice", pw_uid := 1000, pw_gid := 1000, pw_dir := "/home/alice",
           pw_shell := "/bin/sh" }
  else none

/-- A privileged hosting process seen from the parent side of a successful
`forkpty` (child 4242 on master descriptor 7). -/
def parentHost : Host where
  js_ToNumber := fun _ => .nan
  js_ToString := fun _ => "[object Object]"
  int64_cast_overflow := fun _ => -9223372036854775808
  getpwnam := sampleUsers
  forkpty := fun _ => { pid := 4242, master := 7 }
  gid := 0
  setgid_sets_real := fun _ => true
  execvp_returns := fun _ => false
  ioctl_TIOCSWINSZ := fun _ _ => 0

/-- The same hosting process seen from the child side of the fork. -/
def childHost : Host := { parentHost with forkpty := fun _ => { pid := 0, master := 7 } }

/-- A child whose `execvp` fails. -/
def childHostExecFails : Host := { childHost with execvp_returns := fun _ => true }

/-- The child of an unprivileged hosting process with real group id 500:
`setgid 1000` is refused and the real group id stays 500. -/
def unprivilegedChildHost : Host :=
  { childHost with gid := 500, setgid_sets_real := fun g => decide (g = 500) }

/-- A host whose `forkpty` fails. -/
def failingForkHost : Host := { parentHost with forkpty := fun _ => { pid := -1, master := 0 } }

/-- The window size `ForkPty` hands to `forkpty` once the argument checks are
passed (lines 68-83): the two converted arguments when there are exactly five
arguments, 80 columns by 30 rows otherwise. -/
def requestedSize (h : Host) (args : List JsValue) : winsize :=
  if args.length = 5 then
    { ws_row := toUnsignedShort (h.IntegerValue (arg args 4)),
      ws_col := toUnsignedShort (h.IntegerValue (arg args 3)), ws_xpixel := 0, ws_ypixel := 0 }
  else { ws_row := 30, ws_col := 80, ws_xpixel := 0, ws_ypixel := 0 }

/-! ## Structural lemmas -/

/-- Validation of a call whose first two arguments are strings only looks at
the size arguments. -/
theorem passesValidation_cons (command username : String) (rest : List JsValue) :
    passesValidation (.string command :: .string username :: rest) =
      (rest.length != 3 || ((arg rest 1).IsNumber && (arg rest 2).IsNumber)) := by
  simp [passesValidation, arg, JsValue.IsString]

/-- After validation `ForkPty` is the user lookup followed by `ForkPty_spawn`
at the requested size. -/
theorem ForkPty_of_valid (h : Host) (args : List JsValue) (hv : passesValidation args = true) :
    ForkPty h args =
      { trace := [.strdup (cstr (h.ToString (arg args 0))),
                  .getpwnam (cstr (h.ToString (arg args 1)))] ++
                 (ForkPty_spawn h args (cstr (h.ToString (arg args 0)))
                    (h.getpwnam (cstr (h.ToString (arg args 1)))) (requestedSize h args)).trace,
        outcome := (ForkPty_spawn h args (cstr (h.ToString (arg args 0)))
                    (h.getpwnam (cstr (h.ToString (arg args 1)))) (requestedSize h args)).outcome } := by
  simp only [passesValidation, Bool.and_eq_true, decide_eq_true_eq, Bool.or_eq_true, bne_iff_ne,
    ne_eq] at hv
  obtain ⟨⟨⟨hlen, h0⟩, h1⟩, h5⟩ := hv
  have hlen2 : ¬ args.length < 2 := by omega
  unfold ForkPty requestedSize
  by_cases h5l : args.length = 5
  · have hn : (arg args 3).IsNumber = true ∧ (arg args 4).IsNumber = true := by
      rcases h5 with h5 | h5
      · exact absurd h5l h5
      · exact h5
    simp [hlen2, h0, h1, h5l, hn.1, hn.2]
  · simp [hlen2, h0, h1, h5l]

/-- In the child context `ForkPty_spawn` is `signal`, `forkpty`, then the child body. -/
theorem ForkPty_spawn_child (h : Host) (args : List JsValue) (argv0 : String)
    (pwd : Option passwd) (winp : winsize) (hpid : (h.forkpty winp).pid = 0) :
    ForkPty_spawn h args argv0 pwd winp =
      { trace := [.signal_SIGCHLD_SIG_IGN, .forkpty winp] ++ (ForkPty_child h args argv0 pwd).trace,
        outcome := (ForkPty_child h args argv0 pwd).outcome } := by
  simp [ForkPty_spawn, hpid]

/-! ## Claims about `ForkPty` -/

/-- C1: a call of `ForkPty` with fewer than two arguments, or whose argument 0
or argument 1 is not a string, throws an exception of class `InvalidArgument`
with an empty trace: no user lookup, no `signal`, no `forkpty` happened. -/
theorem ForkPty_invalid_arguments_no_effect (h : Host) (args : List JsValue)
    (hbad : args.length < 2 ∨ (arg args 0).IsString = false ∨ (arg args 1).IsString = false) :
    ∃ e, ForkPty h args = { trace := [], outcome := .threw e } ∧ e.kind = .InvalidArgument := by
  unfold ForkPty
  by_cases hlen : args.length < 2
  · exact ⟨.notEnoughArguments, by simp [hlen], rfl⟩
  · have hs : (!(arg args 0).IsString || !(arg args 1).IsString) = true := by
      rcases hbad with hb | hb | hb
      · exact absurd hb hlen
      · simp [hb]
      · simp [hb]
    exact ⟨.firstTwoStrings, by simp [hlen, hs], rfl⟩

/-- Witness for C1: one argument only, and a numeric username. -/
theorem ForkPty_invalid_arguments_no_effect_witness :
    (∃ e, ForkPty parentHost [.string "sh"] = { trace := [], outcome := .threw e } ∧
        e.kind = .InvalidArgument) ∧
    (∃ e, ForkPty parentHost [.string "sh", .number (.ofInt 7)] =
        { trace := [], outcome := .threw e } ∧ e.kind = .InvalidArgument) :=
  ⟨ForkPty_invalid_arguments_no_effect parentHost [.string "sh"] (Or.inl (by decide)),
   ForkPty_invalid_arguments_no_effect parentHost [.string "sh", .number (.ofInt 7)]
     (Or.inr (Or.inr (by decide)))⟩

/-- C2 (evaluation at the failing input): with a username the user directory
does not know, `ForkPty` still calls `signal` and `forkpty`; the parent
context returns a session object and the child context dereferences the NULL
identity.  No throw site of `pty.cc` has class `UserLookupFailure`. -/
theorem ForkPty_unknown_user_still_forks :
    sampleUsers (cstr "mallory") = none ∧
    ForkPty parentHost [.string "sh", .string "mallory"] =
      { trace := [.strdup "sh", .getpwnam "mallory", .signal_SIGCHLD_SIG_IGN,
                  .forkpty { ws_row := 30, ws_col := 80, ws_xpixel := 0, ws_ypixel := 0 }],
        outcome := .returnedObject 7 4242 } ∧
    ForkPty childHost [.string "sh", .string "mallory"] =
      { trace := [.strdup "sh", .getpwnam "mallory", .signal_SIGCHLD_SIG_IGN,
                  .forkpty { ws_row := 30, ws_col := 80, ws_xpixel := 0, ws_ypixel := 0 }],
        outcome := .nullDereference } ∧
    ∀ e : PtyError, e.kind ≠ .UserLookupFailure := by
  refine ⟨by decide, by decide, by decide, ?_⟩
  intro e
  cases e <;> decide

/-- C3: in the child context of a successful fork with a resolved identity
`pw`, the calls after `forkpty` are, in this order: `setgid pw_gid`,
`setegid pw_gid`, `getgid`, `setgroups` with one group, `setuid pw_uid`,
`seteuid pw_uid`, (a `strdup` of the terminal type when one was passed,)
`setenv TERM`, `chdir pw_dir`, `execvp` of the command with the command name
as only argument; when `execvp` returns, `perror` and `_exit 1` follow and
the child ends with status 1. -/
theorem ForkPty_child_steps_in_order (h : Host) (command username : String)
    (rest : List JsValue) (pw : passwd)
    (hv : passesValidation (.string command :: .string username :: rest) = true)
    (hpw : h.getpwnam (cstr username) = some pw)
    (hchild : (h.forkpty (requestedSize h (.string command :: .string username :: rest))).pid = 0) :
    ∃ (newgid : Nat) (term : String) (dup : List Effect),
      (dup = [] ∨ dup = [.strdup term]) ∧
      (ForkPty h (.string command :: .string username :: rest)).trace =
        [.strdup (cstr command), .getpwnam (cstr username), .signal_SIGCHLD_SIG_IGN,
         .forkpty (requestedSize h (.string command :: .string username :: rest)),
         .setgid pw.pw_gid, .setegid pw.pw_gid, .getgid, .setgroups 1 [newgid],
         .setuid pw.pw_uid, .seteuid pw.pw_uid] ++ dup ++
        [.setenv "TERM" term 1, .chdir pw.pw_dir, .execvp (cstr command) [cstr command]] ++
        (if h.execvp_returns (cstr command) then [.perror "execvp failed", ._exit 1] else []) ∧
      (ForkPty h (.string command :: .string username :: rest)).outcome =
        if h.execvp_returns (cstr command) then .exited 1
        else .execed (cstr command) [cstr command] := by
  rw [ForkPty_of_valid h _ hv]
  have ha0 : h.ToString (arg (.string command :: .string username :: rest) 0) = command := rfl
  have ha1 : h.ToString (arg (.string command :: .string username :: rest) 1) = username := rfl
  rw [ha0, ha1, hpw, ForkPty_spawn_child h _ _ _ _ hchild]
  cases hr : h.execvp_returns (cstr command) <;>
  by_cases ht : (0 < rest.length ∧
        (arg (.string command :: .string username :: rest) 2).IsString = true)
  · exact ⟨if h.setgid_sets_real pw.pw_gid then pw.pw_gid else h.gid,
      cstr (h.ToString (arg (.string command :: .string username :: rest) 2)),
      [.strdup (cstr (h.ToString (arg (.string command :: .string username :: rest) 2)))],
      Or.inr rfl, by simp [ForkPty_child, hr, ht], by simp [ForkPty_child, hr]⟩
  · exact ⟨if h.setgid_sets_real pw.pw_gid then pw.pw_gid else h.gid, "vt100", [],
      Or.inl rfl, by simp [ForkPty_child, hr, ht], by simp [ForkPty_child, hr]⟩
  · exact ⟨if h.setgid_sets_real pw.pw_gid then pw.pw_gid else h.gid,
      cstr (h.ToString (arg (.string command :: .string username :: rest) 2)),
      [.strdup (cstr (h.ToString (arg (.string command :: .string username :: rest) 2)))],
      Or.inr rfl, by simp [ForkPty_child, hr, ht], by simp [ForkPty_child, hr]⟩
  · exact ⟨if h.setgid_sets_real pw.pw_gid then pw.pw_gid else h.gid, "vt100", [],
      Or.inl rfl, by simp [ForkPty_child, hr, ht], by simp [ForkPty_child, hr]⟩

/-- Witness for C3: user `alice`, terminal type `xterm`, in a child whose `execvp` fails. -/
theorem ForkPty_child_steps_in_order_witness :
    ∃ (newgid : Nat) (term : String) (dup : List Effect),
      (dup = [] ∨ dup = [.strdup term]) ∧
      (ForkPty childHostExecFails [.string "sh", .string "alice", .string "xterm"]).trace =
        [.strdup (cstr "sh"), .getpwnam (cstr "alice"), .signal_SIGCHLD_SIG_IGN,
         .forkpty (requestedSize childHostExecFails
            [.string "sh", .string "alice", .string "xterm"]),
         .setgid 1000, .setegid 1000, .getgid, .setgroups 1 [newgid],
         .setuid 1000, .seteuid 1000] ++ dup ++
        [.setenv "TERM" term 1, .chdir "/home/alice", .execvp (cstr "sh") [cstr "sh"]] ++
        (if childHostExecFails.execvp_returns (cstr "sh") then
          [.perror "execvp failed", ._exit 1] else []) ∧
      (ForkPty childHostExecFails [.string "sh", .string "alice", .string "xterm"]).outcome =
        if childHostExecFails.execvp_returns (cstr "sh") then .exited 1
        else .execed (cstr "sh") [cstr "sh"] :=
  ForkPty_child_steps_in_order childHostExecFails "sh" "alice" [.string "xterm"]
    { pw_name := "alice", pw_uid := 1000, pw_gid := 1000, pw_dir := "/home/alice",
      pw_shell := "/bin/sh" } (by decide) (by decide) (by decide)

/-- C4 (counterexample): `fork("sh", "alice", "xterm", 3)`, columns given and
rows omitted, does not fail: `forkpty` is called with the default 80 by 30
and the parent returns the session. -/
theorem ForkPty_cols_only_forks_with_default :
    ForkPty parentHost [.string "sh", .string "alice", .string "xterm", .number (.ofInt 3)] =
      { trace := [.strdup "sh", .getpwnam "alice", .signal_SIGCHLD_SIG_IGN,
                  .forkpty { ws_row := 30, ws_col := 80, ws_xpixel := 0, ws_ypixel := 0 }],
        outcome := .returnedObject 7 4242 } := by
  decide

/-- After validation the trace holds exactly one `forkpty` call, at the requested size. -/
theorem forkptyCalls_of_valid (h : Host) (args : List JsValue)
    (hv : passesValidation args = true) :
    forkptyCalls (ForkPty h args).trace = [requestedSize h args] := by
  rw [ForkPty_of_valid h args hv]
  simp only [ForkPty_spawn]
  split
  · simp [forkptyCalls]
  · split
    · cases hp : h.getpwnam (cstr (h.ToString (arg args 1))) with
      | none => simp [ForkPty_child, forkptyCalls]
      | some pw =>
        cases hr : h.execvp_returns (cstr (h.ToString (arg args 0))) <;>
        by_cases ht : (2 < args.length ∧ (arg args 2).IsString = true) <;>
        simp [ForkPty_child, forkptyCalls, hr, ht]
    · simp [forkptyCalls]

/-- After validation the only exception `ForkPty` can throw is the `forkpty` failure. -/
theorem threw_of_valid (h : Host) (args : List JsValue) (hv : passesValidation args = true)
    (e : PtyError) (he : (ForkPty h args).outcome = .threw e) : e = .forkptyFailed := by
  rw [ForkPty_of_valid h args hv] at he
  simp only [ForkPty_spawn] at he
  split at he
  · simpa using he.symm
  · split at he
    · cases hp : h.getpwnam (cstr (h.ToString (arg args 1))) with
      | none => simp [ForkPty_child, hp] at he
      | some pw =>
        cases hr : h.execvp_returns (cstr (h.ToString (arg args 0))) <;>
        simp [ForkPty_child, hp, hr] at he
    · simp at he

/-- C4 (amended): with valid command and username and exactly four arguments
the fourth is ignored: `forkpty` is called once with 80 columns by 30 rows and
no `InvalidArgument` is thrown.  `InvalidArgument` for the size arises with
exactly five arguments of which argument 3 or 4 is not a number, and then no
`forkpty` call is made. -/
theorem ForkPty_size_needs_five_arguments (h : Host) (command username : String)
    (term cols : JsValue) :
    (forkptyCalls (ForkPty h [.string command, .string username, term, cols]).trace =
        [{ ws_row := 30, ws_col := 80, ws_xpixel := 0, ws_ypixel := 0 }] ∧
      ∀ e, (ForkPty h [.string command, .string username, term, cols]).outcome = .threw e →
        e.kind ≠ .InvalidArgument) ∧
    ∀ rows : JsValue, cols.IsNumber = false ∨ rows.IsNumber = false →
      ForkPty h [.string command, .string username, term, cols, rows] =
        { trace := [.strdup (cstr command), .getpwnam (cstr username)],
          outcome := .threw .colsRowsNumbers } ∧
      forkptyCalls (ForkPty h [.string command, .string username, term, cols, rows]).trace = [] ∧
      PtyError.colsRowsNumbers.kind = .InvalidArgument := by
  have hv : passesValidation [.string command, .string username, term, cols] = true := by
    simp [passesValidation, arg, JsValue.IsString]
  refine ⟨⟨?_, ?_⟩, ?_⟩
  · rw [forkptyCalls_of_valid h _ hv]
    simp [requestedSize]
  · intro e he
    rw [threw_of_valid h _ hv e he]
    decide
  · intro rows hbad
    have hn : ((arg [.string command, .string username, term, cols, rows] 3).IsNumber &&
        (arg [.string command, .string username, term, cols, rows] 4).IsNumber) = false := by
      rcases hbad with hb | hb <;> simp [arg, hb]
    have hrun : ForkPty h [.string command, .string username, term, cols, rows] =
        { trace := [.strdup (cstr command), .getpwnam (cstr username)],
          outcome := .threw .colsRowsNumbers } := by
      unfold ForkPty
      rw [if_neg (by simp), if_neg (by simp [arg, JsValue.IsString])]
      simp only [List.length_cons, List.length_nil]
      rw [if_pos (by decide), hn]
      simp [arg, Host.ToString]
    refine ⟨hrun, ?_, rfl⟩
    rw [hrun]
    rfl

/-- Witness for C4 (amended): four arguments, and five arguments with a string for rows. -/
theorem ForkPty_size_needs_five_arguments_witness :
    forkptyCalls (ForkPty parentHost
        [.string "sh", .string "alice", .string "xterm", .number (.ofInt 3)]).trace =
      [{ ws_row := 30, ws_col := 80, ws_xpixel := 0, ws_ypixel := 0 }] ∧
    ForkPty parentHost
        [.string "sh", .string "alice", .string "xterm", .number (.ofInt 3), .string "x"] =
      { trace := [.strdup (cstr "sh"), .getpwnam (cstr "alice")],
        outcome := .threw .colsRowsNumbers } :=
  ⟨(ForkPty_size_needs_five_arguments parentHost "sh" "alice" (.string "xterm")
      (.number (.ofInt 3))).1.1,
   ((ForkPty_size_needs_five_arguments parentHost "sh" "alice" (.string "xterm")
      (.number (.ofInt 3))).2 (.string "x") (Or.inr rfl)).1⟩

/-- C5 (counterexample): in the child of an unprivileged hosting process whose
real group id is 500, launching as `alice` (primary group 1000) calls
`setgroups` with the list `[500]`, not `[1000]`. -/
theorem ForkPty_setgroups_not_primary_group :
    (sampleUsers (cstr "alice")).map passwd.pw_gid = some 1000 ∧
    setgroupsCalls (ForkPty unprivilegedChildHost [.string "sh", .string "alice"]).trace =
      [(1, [500])] := by
  constructor <;> decide

/-- C5 (amended): in the child, with a resolved identity `pw`, `setgroups` is
called exactly once, with size 1 and a one-element list holding the real
group id the child has after `setgid`: `pw_gid` when `setgid pw_gid` made it
the real group id, the real group id inherited from the hosting process
otherwise. -/
theorem ForkPty_setgroups_real_gid (h : Host) (command username : String)
    (rest : List JsValue) (pw : passwd)
    (hv : passesValidation (.string command :: .string username :: rest) = true)
    (hpw : h.getpwnam (cstr username) = some pw)
    (hchild : (h.forkpty (requestedSize h (.string command :: .string username :: rest))).pid = 0) :
    setgroupsCalls (ForkPty h (.string command :: .string username :: rest)).trace =
      [(1, [if h.setgid_sets_real pw.pw_gid then pw.pw_gid else h.gid])] := by
  rw [ForkPty_of_valid h _ hv]
  have ha0 : h.ToString (arg (.string command :: .string username :: rest) 0) = command := rfl
  have ha1 : h.ToString (arg (.string command :: .string username :: rest) 1) = username := rfl
  rw [ha0, ha1, hpw, ForkPty_spawn_child h _ _ _ _ hchild]
  cases hr : h.execvp_returns (cstr command) <;>
  by_cases ht : (0 < rest.length ∧
        (arg (.string command :: .string username :: rest) 2).IsString = true) <;>
  simp [ForkPty_child, setgroupsCalls, hr, ht]

/-- Witness for C5 (amended): a privileged child, where the list is `[pw_gid]`. -/
theorem ForkPty_setgroups_real_gid_witness :
    setgroupsCalls (ForkPty childHost [.string "sh", .string "alice"]).trace =
      [(1, [if childHost.setgid_sets_real 1000 then 1000 else childHost.gid])] :=
  ForkPty_setgroups_real_gid childHost "sh" "alice" []
    { pw_name := "alice", pw_uid := 1000, pw_gid := 1000, pw_dir := "/home/alice",
      pw_shell := "/bin/sh" } (by decide) (by decide) (by decide)

/-- C6: a call of `ForkPty` that passes the argument checks calls `forkpty`
exactly once; with `forkpty` returning `-1`, `0` or a positive process id, the
call throws the `ForkFailure` exception exactly when that call returned `-1`,
and when it returned neither `-1` nor `0` (the parent context) the call
returns the object whose `fd` is the master descriptor and whose `pid` is the
process id of that same `forkpty` call, and this `pid` is positive. -/
theorem ForkPty_forks_once (h : Host) (args : List JsValue)
    (hv : passesValidation args = true)
    (hpid : ∀ w, -1 ≤ (h.forkpty w).pid) :
    ∃ w, forkptyCalls (ForkPty h args).trace = [w] ∧
      ((∃ e, (ForkPty h args).outcome = .threw e ∧ e.kind = .ForkFailure) ↔
        (h.forkpty w).pid = -1) ∧
      ((h.forkpty w).pid ≠ -1 → (h.forkpty w).pid ≠ 0 →
        (ForkPty h args).outcome = .returnedObject (h.forkpty w).master (h.forkpty w).pid ∧
        0 < (h.forkpty w).pid) := by
  refine ⟨requestedSize h args, forkptyCalls_of_valid h args hv, ?_, ?_⟩
  · constructor
    · rintro ⟨e, he, -⟩
      rw [ForkPty_of_valid h args hv] at he
      simp only [ForkPty_spawn] at he
      split at he
      · rename_i hq
        simpa using hq
      · split at he
        · cases hp : h.getpwnam (cstr (h.ToString (arg args 1))) with
          | none => simp [ForkPty_child, hp] at he
          | some pw =>
            cases hr : h.execvp_returns (cstr (h.ToString (arg args 0))) <;>
            simp [ForkPty_child, hp, hr] at he
        · simp at he
    · intro hfail
      refine ⟨.forkptyFailed, ?_, rfl⟩
      rw [ForkPty_of_valid h args hv]
      simp [ForkPty_spawn, hfail]
  · intro h1 h0
    refine ⟨?_, ?_⟩
    · rw [ForkPty_of_valid h args hv]
      simp [ForkPty_spawn, h1, h0]
    · have := hpid (requestedSize h args)
      omega

/-- Witness for C6: the parent side of a successful fork and a failed fork. -/
theorem ForkPty_forks_once_witness :
    (∃ w, forkptyCalls (ForkPty parentHost [.string "sh", .string "alice"]).trace = [w] ∧
      ((∃ e, (ForkPty parentHost [.string "sh", .string "alice"]).outcome = .threw e ∧
          e.kind = .ForkFailure) ↔ (parentHost.forkpty w).pid = -1) ∧
      ((parentHost.forkpty w).pid ≠ -1 → (parentHost.forkpty w).pid ≠ 0 →
        (ForkPty parentHost [.string "sh", .string "alice"]).outcome =
          .returnedObject (parentHost.forkpty w).master (parentHost.forkpty w).pid ∧
        0 < (parentHost.forkpty w).pid)) ∧
    (∃ w, forkptyCalls (ForkPty failingForkHost [.string "sh", .string "alice"]).trace = [w] ∧
      ((∃ e, (ForkPty failingForkHost [.string "sh", .string "alice"]).outcome = .threw e ∧
          e.kind = .ForkFailure) ↔ (failingForkHost.forkpty w).pid = -1) ∧
      ((failingForkHost.forkpty w).pid ≠ -1 → (failingForkHost.forkpty w).pid ≠ 0 →
        (ForkPty failingForkHost [.string "sh", .string "alice"]).outcome =
          .returnedObject (failingForkHost.forkpty w).master (failingForkHost.forkpty w).pid ∧
        0 < (failingForkHost.forkpty w).pid)) :=
  ⟨ForkPty_forks_once parentHost [.string "sh", .string "alice"] (by decide)
      (by intro w; simp [parentHost]),
   ForkPty_forks_once failingForkHost [.string "sh", .string "alice"] (by decide)
      (by intro w; simp [failingForkHost])⟩

/-! ## Claims about `ResizePty` -/

/-- Truncation leaves an integer-valued number unchanged. -/
theorem truncate_zero_exp (n : Int) : JsNumber.truncate n 0 = n := by
  simp [JsNumber.truncate]

/-- The expression `v->ToInteger()->Value()` on a number holding an integer in the
range of `int64_t` is that integer. -/
theorem IntegerValue_ofInt (h : Host) (n : Int)
    (hlo : -9223372036854775808 ≤ n) (hhi : n < 9223372036854775808) :
    h.IntegerValue (.number (.ofInt n)) = n := by
  simp [Host.IntegerValue, Host.ToNumber, JsNumber.ofInt, JsNumber.ToInteger, Host.Value,
    truncate_zero_exp, hlo, hhi]

/-- A number holding an integer in the range of `int` denotes that descriptor. -/
theorem descriptorOf_ofInt (h : Host) (fd : Int)
    (hlo : -2147483648 ≤ fd) (hhi : fd ≤ 2147483647) :
    descriptorOf h (.number (.ofInt fd)) = fd := by
  unfold descriptorOf
  rw [IntegerValue_ofInt h fd (by omega) (by omega)]
  unfold toCInt
  omega

/-- `ResizePty_apply` makes exactly the one `ioctl` call. -/
theorem ResizePty_apply_trace (h : Host) (fd : Int) (winp : winsize) :
    (ResizePty_apply h fd winp).trace = [.ioctl_TIOCSWINSZ fd winp] := by
  unfold ResizePty_apply
  split <;> rfl

/-- `ResizePty_apply` throws nothing but the `ioctl` failure. -/
theorem ResizePty_apply_threw (h : Host) (fd : Int) (winp : winsize) (e : PtyError)
    (he : (ResizePty_apply h fd winp).outcome = .threw e) : e = .ioctlFailed := by
  unfold ResizePty_apply at he
  split at he
  · simpa using he.symm
  · simp at he

/-- C7: `ResizePty` called with a numeric descriptor alone makes exactly one
call, `ioctl(fd, TIOCSWINSZ, ...)`, on the descriptor the number denotes, with
80 columns, 30 rows and both pixel fields zero; for a number holding an
integer `fd` in the range of `int` the descriptor is `fd` itself. -/
theorem ResizePty_descriptor_only_default (h : Host) (d : JsNumber) :
    (ResizePty h [.number d]).trace =
      [.ioctl_TIOCSWINSZ (descriptorOf h (.number d))
        { ws_row := 30, ws_col := 80, ws_xpixel := 0, ws_ypixel := 0 }] ∧
    ∀ fd : Int, -2147483648 ≤ fd → fd ≤ 2147483647 →
      (ResizePty h [.number (.ofInt fd)]).trace =
        [.ioctl_TIOCSWINSZ fd { ws_row := 30, ws_col := 80, ws_xpixel := 0, ws_ypixel := 0 }] := by
  have key : ∀ d : JsNumber, (ResizePty h [.number d]).trace =
      [.ioctl_TIOCSWINSZ (descriptorOf h (.number d))
        { ws_row := 30, ws_col := 80, ws_xpixel := 0, ws_ypixel := 0 }] := by
    intro d
    simp [ResizePty, arg, JsValue.IsNumber, ResizePty_apply_trace]
  refine ⟨key d, ?_⟩
  intro fd hlo hhi
  rw [key, descriptorOf_ofInt h fd hlo hhi]

/-- Witness for C7: descriptor 7. -/
theorem ResizePty_descriptor_only_default_witness :
    (ResizePty parentHost [.number (.ofInt 7)]).trace =
      [.ioctl_TIOCSWINSZ 7 { ws_row := 30, ws_col := 80, ws_xpixel := 0, ws_ypixel := 0 }] :=
  (ResizePty_descriptor_only_default parentHost (.ofInt 7)).2 7 (by decide) (by decide)

/-- C8: `ResizePty` called with a numeric descriptor and integers `cols`,
`rows` between 1 and 65535 makes exactly one call, a single
`ioctl(fd, TIOCSWINSZ, ...)` on the descriptor the number denotes that carries
both `ws_col = cols` and `ws_row = rows`; for a number holding an integer `fd`
in the range of `int` the descriptor is `fd` itself. -/
theorem ResizePty_applies_both_dimensions (h : Host) (d : JsNumber) (cols rows : Nat)
    (hc : 1 ≤ cols ∧ cols ≤ 65535) (hr : 1 ≤ rows ∧ rows ≤ 65535) :
    (ResizePty h [.number d, .number (.ofInt cols), .number (.ofInt rows)]).trace =
      [.ioctl_TIOCSWINSZ (descriptorOf h (.number d))
        { ws_row := rows, ws_col := cols, ws_xpixel := 0, ws_ypixel := 0 }] ∧
    ∀ fd : Int, -2147483648 ≤ fd → fd ≤ 2147483647 →
      (ResizePty h [.number (.ofInt fd), .number (.ofInt cols), .number (.ofInt rows)]).trace =
        [.ioctl_TIOCSWINSZ fd
          { ws_row := rows, ws_col := cols, ws_xpixel := 0, ws_ypixel := 0 }] := by
  have hcv : toUnsignedShort (h.IntegerValue (.number (.ofInt cols))) = cols := by
    rw [IntegerValue_ofInt h cols (by omega) (by omega)]
    unfold toUnsignedShort
    omega
  have hrv : toUnsignedShort (h.IntegerValue (.number (.ofInt rows))) = rows := by
    rw [IntegerValue_ofInt h rows (by omega) (by omega)]
    unfold toUnsignedShort
    omega
  have key : ∀ d : JsNumber,
      (ResizePty h [.number d, .number (.ofInt cols), .number (.ofInt rows)]).trace =
      [.ioctl_TIOCSWINSZ (descriptorOf h (.number d))
        { ws_row := rows, ws_col := cols, ws_xpixel := 0, ws_ypixel := 0 }] := by
    intro d
    simp [ResizePty, arg, JsValue.IsNumber, ResizePty_apply_trace, hcv, hrv]
  refine ⟨key d, ?_⟩
  intro fd hlo hhi
  rw [key, descriptorOf_ofInt h fd hlo hhi]

/-- Witness for C8: `resize(7, 132, 43)`. -/
theorem ResizePty_applies_both_dimensions_witness :
    (ResizePty parentHost [.number (.ofInt 7), .number (.ofInt 132), .number (.ofInt 43)]).trace =
      [.ioctl_TIOCSWINSZ 7 { ws_row := 43, ws_col := 132, ws_xpixel := 0, ws_ypixel := 0 }] :=
  (ResizePty_applies_both_dimensions parentHost (.ofInt 7) 132 43
    ⟨by decide, by decide⟩ ⟨by decide, by decide⟩).2 7 (by decide) (by decide)

/-- C9 (evaluation at the failing input): `ResizePty` called with no argument
throws no `InvalidArgument`; on every host it issues the window-size update
`ioctl(0, TIOCSWINSZ, ...)` with 80 columns by 30 rows on descriptor 0. -/
theorem ResizePty_no_arguments_updates_descriptor_zero (h : Host) :
    (ResizePty h []).trace =
      [.ioctl_TIOCSWINSZ 0 { ws_row := 30, ws_col := 80, ws_xpixel := 0, ws_ypixel := 0 }] ∧
    ioctlCalls (ResizePty h []).trace =
      [(0, { ws_row := 30, ws_col := 80, ws_xpixel := 0, ws_ypixel := 0 })] ∧
    ∀ e, (ResizePty h []).outcome = .threw e → e.kind ≠ .InvalidArgument := by
  have hfd : descriptorOf h (arg [] 0) = 0 := by
    simp [descriptorOf, arg, Host.IntegerValue, Host.ToNumber, JsNumber.ToInteger, Host.Value,
      truncate_zero_exp, toCInt]
  have hrun : ResizePty h [] =
      ResizePty_apply h 0 { ws_row := 30, ws_col := 80, ws_xpixel := 0, ws_ypixel := 0 } := by
    unfold ResizePty
    rw [hfd]
    simp
  rw [hrun, ResizePty_apply_trace]
  refine ⟨rfl, rfl, ?_⟩
  intro e he
  rw [ResizePty_apply_threw h _ _ e he]
  decide

/-- The part of C9 that holds: a first argument that is not a number is
rejected before any `ioctl`. -/
theorem ResizePty_non_number_descriptor (h : Host) (v : JsValue) (rest : List JsValue)
    (hv : v.IsNumber = false) :
    ResizePty h (v :: rest) = { trace := [], outcome := .threw .firstArgumentNumber } := by
  simp [ResizePty, arg, hv]

/-! ## Conversion of the size arguments (both functions) -/

/-- C10: with five arguments to `ForkPty` and three to `ResizePty`, every pair
of numbers `cols`, `rows` is accepted (no `InvalidArgument`), and the geometry
passed to `forkpty`, respectively `ioctl`, is the `int64_t` value of each
number reduced modulo 65536.  An integer in 0..65535 is passed unchanged,
65536 gives 0 and -1 gives 65535. -/
theorem size_arguments_reduced_mod_65536 (h : Host) (command username : String)
    (term : JsValue) (d cols rows : JsNumber) :
    (forkptyCalls (ForkPty h
        [.string command, .string username, term, .number cols, .number rows]).trace =
      [{ ws_row := (h.IntegerValue (.number rows) % 65536).toNat,
         ws_col := (h.IntegerValue (.number cols) % 65536).toNat,
         ws_xpixel := 0, ws_ypixel := 0 }] ∧
     ∀ e, (ForkPty h
        [.string command, .string username, term, .number cols, .number rows]).outcome =
          .threw e → e.kind ≠ .InvalidArgument) ∧
    ((ResizePty h [.number d, .number cols, .number rows]).trace =
      [.ioctl_TIOCSWINSZ (descriptorOf h (.number d))
        { ws_row := (h.IntegerValue (.number rows) % 65536).toNat,
          ws_col := (h.IntegerValue (.number cols) % 65536).toNat,
          ws_xpixel := 0, ws_ypixel := 0 }] ∧
     ∀ e, (ResizePty h [.number d, .number cols, .number rows]).outcome = .threw e →
        e.kind ≠ .InvalidArgument) ∧
    (∀ n : Int, -9223372036854775808 ≤ n → n < 9223372036854775808 →
      h.IntegerValue (.number (.ofInt n)) = n) ∧
    (∀ n : Int, 0 ≤ n → n ≤ 65535 →
      ((h.IntegerValue (.number (.ofInt n)) % 65536).toNat : Int) = n) ∧
    (h.IntegerValue (.number (.ofInt 65536)) % 65536).toNat = 0 ∧
    (h.IntegerValue (.number (.ofInt (-1))) % 65536).toNat = 65535 := by
  have hv : passesValidation
      [.string command, .string username, term, .number cols, .number rows] = true := by
    simp [passesValidation, arg, JsValue.IsString, JsValue.IsNumber]
  have hrun : ResizePty h [.number d, .number cols, .number rows] =
      ResizePty_apply h (descriptorOf h (.number d))
        { ws_row := (h.IntegerValue (.number rows) % 65536).toNat,
          ws_col := (h.IntegerValue (.number cols) % 65536).toNat,
          ws_xpixel := 0, ws_ypixel := 0 } := by
    simp [ResizePty, arg, JsValue.IsNumber, toUnsignedShort]
  refine ⟨⟨?_, ?_⟩, ⟨?_, ?_⟩, ?_, ?_, ?_, ?_⟩
  · rw [forkptyCalls_of_valid h _ hv]
    simp [requestedSize, arg, toUnsignedShort]
  · intro e he
    rw [threw_of_valid h _ hv e he]
    decide
  · rw [hrun, ResizePty_apply_trace]
  · intro e he
    rw [hrun] at he
    rw [ResizePty_apply_threw h _ _ e he]
    decide
  · intro n hlo hhi
    exact IntegerValue_ofInt h n hlo hhi
  · intro n hlo hhi
    rw [IntegerValue_ofInt h n (by omega) (by omega)]
    omega
  · rw [IntegerValue_ofInt h 65536 (by decide) (by decide)]
    decide
  · rw [IntegerValue_ofInt h (-1) (by decide) (by decide)]
    decide

/-- Witness for C10: `fork("sh", "alice", "xterm", 65536, -1)` and
`resize(7, 65536, -1)` both hand 0 columns and 65535 rows to the system. -/
theorem size_arguments_reduced_mod_65536_witness :
    forkptyCalls (ForkPty parentHost [.string "sh", .string "alice", .string "xterm",
        .number (.ofInt 65536), .number (.ofInt (-1))]).trace =
      [{ ws_row := 65535, ws_col := 0, ws_xpixel := 0, ws_ypixel := 0 }] ∧
    (ResizePty parentHost [.number (.ofInt 7), .number (.ofInt 65536),
        .number (.ofInt (-1))]).trace =
      [.ioctl_TIOCSWINSZ 7 { ws_row := 65535, ws_col := 0, ws_xpixel := 0, ws_ypixel := 0 }] ∧
    ((parentHost.IntegerValue (.number (.ofInt 80)) % 65536).toNat : Int) = 80 := by
  have key := size_arguments_reduced_mod_65536 parentHost "sh" "alice" (.string "xterm")
    (.ofInt 7) (.ofInt 65536) (.ofInt (-1))
  refine ⟨?_, ?_, key.2.2.2.1 80 (by decide) (by decide)⟩
  · rw [key.1.1]
    decide
  · rw [key.2.1.1]
    decide

end Pty
